import Mathlib

/-!
Verification of the persona-chat workflow of this repository.

The embedding models, from the source:
  - the LangGraph workflow nodes of `src/workflow.ts` (`searchRecentTweets`,
    `evaluateData`, `searchAdditionalSources`, `shouldSearchMore`) and the
    conversational generator of `src/conversation.ts`
    (`generateConversationalResponse`);
  - the variant nodes of the unnamed workflow file (here namespace `P2`),
    which wrap the provider calls in try/catch;
  - the `Voiceboard` class of `src/voiceboard.ts` (its `initialize`, `chat`
    and `clearConversation` methods), the per-session registry of the server
    in the same file, the REST create handler and the socket chat handler.

External effects are made explicit parameters:
  - the Tavily search provider is a function `String → Except String (List Snippet)`
    (the query string to either results or a thrown error);
  - the language model is a function from the message list (or prompt string)
    to `Except String String`;
  - the wall clock enters only through `dateString` (the "one year ago" date
    used in the initial query) and `currentYear` (`new Date().getFullYear()`),
    both fields of `Env`.

Graph execution is modelled with explicit fuel, mirroring LangGraph's
`recursionLimit` (default 25); running out of fuel is the
`GraphRecursionError` of the library.  A `RunStats` record instruments the
runner with how many times each kind of node executed, which the claims
about call bounds and about skipping search/evaluate are stated against.
-/

/-- One retrieved search result.  Tavily returns untyped objects; the code
reads the fields `content`, `snippet`, `title`, `text`, and otherwise uses
`JSON.stringify` of the whole object, which the field `raw` stands for. -/
structure Snippet where
  content : Option String
  snippet : Option String
  title : Option String
  text : Option String
  raw : String
  deriving DecidableEq

/-- A chat message, as in `@langchain/core/messages`. -/
inductive Message where
  | system (content : String)
  | human (content : String)
  | ai (content : String)
  deriving DecidableEq

/-- The state interface of the unnamed workflow file (`PersonalityState`). -/
structure PersonalityState where
  personName : String
  tweets : List Snippet
  otherContent : List Snippet
  dataSufficient : Bool
  searchAttempts : Nat
  response : String
  deriving DecidableEq

/-- The state of `src/conversation.ts` (`ConversationState` extends
`PersonalityState` with the conversation fields; TypeScript interfaces are
structural, so it is one flat record here). -/
structure ConversationState where
  personName : String
  tweets : List Snippet
  otherContent : List Snippet
  dataSufficient : Bool
  searchAttempts : Nat
  response : String
  conversationHistory : List Message
  currentQuery : String
  personalityContext : String
  deriving DecidableEq

/-- JavaScript `a || b` for an optional string field: the empty string is
falsy, so it falls through to the default. -/
def jsOr : Option String → String → String
  | some s, b => if s = "" then b else s
  | none, b => b

/-- Character-list prefix test (used to model JavaScript `String.includes`). -/
def isPrefixCh : List Char → List Char → Bool
  | [], _ => true
  | _ :: _, [] => false
  | a :: as, b :: bs => a == b && isPrefixCh as bs

/-- Character-list substring test. -/
def hasSubCh (needle : List Char) : List Char → Bool
  | [] => isPrefixCh needle []
  | b :: bs => isPrefixCh needle (b :: bs) || hasSubCh needle bs

/-- JavaScript `haystack.includes(needle)`. -/
def strIncludes (haystack needle : String) : Bool :=
  hasSubCh needle.data haystack.data

/-- The query of the initial search node: `personName tweets after:dateString`
where `dateString` is one year before the current date. -/
def searchQuery (personName dateString : String) : String :=
  personName ++ " tweets after:" ++ dateString

/-- The follow-up query templates of `searchAdditionalSources`, selected by
the current `searchAttempts` value (`switch` with cases 1, 2, default). -/
def additionalQuery (personName : String) : Nat → String
  | 1 => personName ++ " interview podcast 2024"
  | 2 => personName ++ " speech quotes recent"
  | _ => personName ++ " opinions views"

/-- Node 1 of `src/workflow.ts`: the initial tweet search.  This version has
no try/catch, so a provider failure propagates. -/
def searchRecentTweets (tavily : String → Except String (List Snippet))
    (dateString : String) (s : ConversationState) : Except String ConversationState :=
  match tavily (searchQuery s.personName dateString) with
  | Except.error e => Except.error e
  | Except.ok results =>
      Except.ok { s with tweets := results, searchAttempts := s.searchAttempts + 1 }

/-- Whether one tweet mentions the current or the previous calendar year:
`JSON.stringify(t).includes(String(currentYear))` or the same for
`currentYear - 1`. -/
def mentionsRecentYear (currentYear : Nat) (t : Snippet) : Bool :=
  strIncludes t.raw (toString currentYear) || strIncludes t.raw (toString (currentYear - 1))

/-- Node 2 (`evaluateData`, identical in `src/workflow.ts` and the unnamed
workflow file): sufficient iff the total snippet count is at least 15 and
some TWEET mentions the current or previous year.  Only the merged
`dataSufficient` channel changes. -/
def evaluateData (currentYear : Nat) (s : ConversationState) : ConversationState :=
  let totalContent := s.tweets.length + s.otherContent.length
  let hasRecent := s.tweets.any (mentionsRecentYear currentYear)
  { s with dataSufficient := decide (totalContent ≥ 15) && hasRecent }

/-- Node 3 of `src/workflow.ts`: follow-up search appending to
`otherContent`.  No try/catch in this version. -/
def searchAdditionalSources (tavily : String → Except String (List Snippet))
    (s : ConversationState) : Except String ConversationState :=
  match tavily (additionalQuery s.personName s.searchAttempts) with
  | Except.error e => Except.error e
  | Except.ok results =>
      Except.ok { s with otherContent := s.otherContent ++ results,
                         searchAttempts := s.searchAttempts + 1 }

/-- The two outgoing labels of the conditional edge after `evaluate`. -/
inductive Route where
  | searchMore
  | generate

/-- The conditional router: generate when sufficient, else search more while
fewer than 4 attempts, else force generation. -/
def shouldSearchMore (s : ConversationState) : Route :=
  if s.dataSufficient then Route.generate
  else if s.searchAttempts < 4 then Route.searchMore
  else Route.generate

/-- The field picked out of a snippet by `src/conversation.ts`
(`c.content || c.snippet || c.text`). -/
def pickContentField (c : Snippet) : String :=
  jsOr c.content (jsOr c.snippet (jsOr c.text ""))

/-- The personality context of `generateConversationalResponse`: the first 15
collected snippets joined by blank lines. -/
def buildPersonalityContext (s : ConversationState) : String :=
  String.intercalate "\n\n" (((s.tweets ++ s.otherContent).take 15).map pickContentField)

/-- The system prompt template of `src/conversation.ts`. -/
def systemPrompt (personName personalityContext : String) : String :=
  "You are mimicking the speaking style and personality of " ++ personName ++
  ".\n\nBased on these examples of their speech and tweets:\n" ++ personalityContext ++
  "\n\nImportant guidelines:\n- Match their vocabulary, tone, and speaking patterns\n" ++
  "- Use similar phrases and expressions they commonly use\n" ++
  "- Maintain their perspective on topics\n" ++
  "- Keep their energy level and communication style\n" ++
  "- If they use specific catchphrases or signatures, include them naturally\n\n" ++
  "Stay in character throughout the conversation."

/-- The generator node of `src/conversation.ts`: builds the message list,
invokes the model, and on success appends the user turn and the reply to the
history.  There is no try/catch here: a model failure propagates, and the
history update never happens in that case. -/
def generateConversationalResponse (llm : List Message → Except String String)
    (s : ConversationState) : Except String ConversationState :=
  match llm (Message.system (systemPrompt s.personName (buildPersonalityContext s)) ::
      (s.conversationHistory ++ [Message.human s.currentQuery])) with
  | Except.error e => Except.error e
  | Except.ok aiResponse =>
      Except.ok { s with
        response := aiResponse,
        conversationHistory := s.conversationHistory ++
          [Message.human s.currentQuery, Message.ai aiResponse],
        personalityContext := buildPersonalityContext s }

namespace P2

/-- Node 1 of the unnamed workflow file: the same tweet search, but the
provider call is wrapped in try/catch; a failure is swallowed into an empty
tweet batch, and the attempt counter still advances. -/
def searchRecentTweets (tavily : String → Except String (List Snippet))
    (dateString : String) (s : PersonalityState) : PersonalityState :=
  match tavily (searchQuery s.personName dateString) with
  | Except.ok results => { s with tweets := results, searchAttempts := s.searchAttempts + 1 }
  | Except.error _ => { s with tweets := [], searchAttempts := s.searchAttempts + 1 }

/-- Node 3 of the unnamed workflow file: the follow-up search with try/catch;
on failure `otherContent` is left as it was and the counter still advances. -/
def searchAdditionalSources (tavily : String → Except String (List Snippet))
    (s : PersonalityState) : PersonalityState :=
  match tavily (additionalQuery s.personName s.searchAttempts) with
  | Except.ok results =>
      { s with otherContent := s.otherContent ++ results,
               searchAttempts := s.searchAttempts + 1 }
  | Except.error _ => { s with searchAttempts := s.searchAttempts + 1 }

/-- The field picked for the content summary
(`item.content || item.snippet || item.title || JSON.stringify(item)`). -/
def pickSummaryField (c : Snippet) : String :=
  jsOr c.content (jsOr c.snippet (jsOr c.title c.raw))

/-- The content summary: first 10 items joined by blank lines. -/
def contentSummary (s : PersonalityState) : String :=
  String.intercalate "\n\n" (((s.tweets ++ s.otherContent).take 10).map pickSummaryField)

/-- `currentQuery || "Tell me about yourself"` (the empty string is falsy). -/
def resolveQuery : Option String → String
  | some q => if q = "" then "Tell me about yourself" else q
  | none => "Tell me about yourself"

/-- The prompt of the unnamed file's `generateResponse`. -/
def buildPrompt (s : PersonalityState) (currentQuery : Option String) : String :=
  "You are " ++ s.personName ++
  ". Based on the following content about you, respond in your authentic voice and style:\n\n" ++
  contentSummary s ++ "\n\nUser asks: \"" ++ resolveQuery currentQuery ++
  "\"\n\nRespond as " ++ s.personName ++
  " would, using your typical communication style, vocabulary, and personality traits. Be conversational and engaging."

/-- Node 4 of the unnamed workflow file: generate with try/catch; on model
failure a fixed apology naming the persona is substituted. -/
def generateResponse (llm : String → Except String String) (s : PersonalityState)
    (currentQuery : Option String) : PersonalityState :=
  match llm (buildPrompt s currentQuery) with
  | Except.ok r => { s with response := r }
  | Except.error _ =>
      { s with response :=
          "I\x27m sorry, I\x27m having trouble generating a response right now. This is " ++
          s.personName ++ " speaking." }

end P2

/-- The nodes of the compiled graph of `Voiceboard.buildWorkflow`. -/
inductive Node where
  | searchTweets
  | evaluate
  | searchMore
  | generate

/-- Instrumentation: how many times each kind of node ran. -/
structure RunStats where
  searchCalls : Nat
  evalCalls : Nat
  generateCalls : Nat
  deriving DecidableEq

def emptyStats : RunStats := { searchCalls := 0, evalCalls := 0, generateCalls := 0 }

/-- The graph runner: entry point `searchTweets`, edge to `evaluate`,
conditional edges from `evaluate` by `shouldSearchMore`, edge from
`searchMore` back to `evaluate`, `generate` terminal.  The fuel models
LangGraph's `recursionLimit`; exhausting it is the library's
`GraphRecursionError`. -/
def runGraph
    (searchNode : ConversationState → Except String ConversationState)
    (evalNode : ConversationState → ConversationState)
    (moreNode : ConversationState → Except String ConversationState)
    (genNode : ConversationState → Except String ConversationState) :
    Nat → Node → ConversationState → RunStats → Except String (ConversationState × RunStats)
  | 0, _, _, _ => Except.error "GraphRecursionError"
  | fuel + 1, Node.searchTweets, s, st =>
      match searchNode s with
      | Except.error e => Except.error e
      | Except.ok s1 =>
          runGraph searchNode evalNode moreNode genNode fuel Node.evaluate s1
            { st with searchCalls := st.searchCalls + 1 }
  | fuel + 1, Node.evaluate, s, st =>
      match shouldSearchMore (evalNode s) with
      | Route.searchMore =>
          runGraph searchNode evalNode moreNode genNode fuel Node.searchMore (evalNode s)
            { st with evalCalls := st.evalCalls + 1 }
      | Route.generate =>
          runGraph searchNode evalNode moreNode genNode fuel Node.generate (evalNode s)
            { st with evalCalls := st.evalCalls + 1 }
  | fuel + 1, Node.searchMore, s, st =>
      match moreNode s with
      | Except.error e => Except.error e
      | Except.ok s1 =>
          runGraph searchNode evalNode moreNode genNode fuel Node.evaluate s1
            { st with searchCalls := st.searchCalls + 1 }
  | _fuel + 1, Node.generate, s, st =>
      match genNode s with
      | Except.error e => Except.error e
      | Except.ok s1 => Except.ok (s1, { st with generateCalls := st.generateCalls + 1 })

/-- The environment of external effects. -/
structure Env where
  tavily : String → Except String (List Snippet)
  llm : List Message → Except String String
  dateString : String
  currentYear : Nat

/-- LangGraph's default recursion limit. -/
def recursionLimit : Nat := 25

/-- The workflow as wired by `Voiceboard.buildWorkflow`: the concrete nodes
of `src/workflow.ts` and `src/conversation.ts` plugged into the runner. -/
def runWorkflow (env : Env) (fuel : Nat) (node : Node) (s : ConversationState)
    (st : RunStats) : Except String (ConversationState × RunStats) :=
  runGraph (searchRecentTweets env.tavily env.dateString) (evaluateData env.currentYear)
    (searchAdditionalSources env.tavily) (generateConversationalResponse env.llm)
    fuel node s st

/-- An evaluator node that reports insufficient data on every pass (the
spec's "Evaluator that always returns false"). -/
def insufficientEvaluator (s : ConversationState) : ConversationState :=
  { s with dataSufficient := false }

/-- A `Voiceboard` instance: the persona name, the mutable state and the
`initialized` flag (here `ready`). -/
structure Voiceboard where
  personName : String
  state : ConversationState
  ready : Bool
  deriving DecidableEq

/-- The state built by the `Voiceboard` constructor. -/
def initialState (personName : String) : ConversationState :=
  { personName := personName, tweets := [], otherContent := [], dataSufficient := false,
    searchAttempts := 0, response := "", conversationHistory := [], currentQuery := "",
    personalityContext := "" }

def Voiceboard.new (personName : String) : Voiceboard :=
  { personName := personName, state := initialState personName, ready := false }

/-- `Voiceboard.initialize`: when not yet ready, run the full workflow from
the entry point on the current state; the ready flag is set only after the
run returns, so a thrown error leaves the board untouched and not ready. -/
def Voiceboard.init (env : Env) (vb : Voiceboard) : Voiceboard × Except String RunStats :=
  if vb.ready then (vb, Except.ok emptyStats)
  else
    match runWorkflow env recursionLimit Node.searchTweets vb.state emptyStats with
    | Except.error e => (vb, Except.error e)
    | Except.ok (s1, st) => ({ vb with state := s1, ready := true }, Except.ok st)

/-- The observable outcome of one `chat` call: the board afterwards (the
object's state after any mutations, also when the call threw), the returned
string or the thrown error, and the node counts. -/
structure ChatOutcome where
  board : Voiceboard
  result : Except String String
  stats : RunStats

/-- `Voiceboard.chat`: initialize first when not ready; then set
`currentQuery` and run a one-node graph holding only the generate node.
`currentQuery` is assigned before the model call, so it sticks even when the
call throws; the history is only touched inside the generator on success. -/
def Voiceboard.chat (env : Env) (vb : Voiceboard) (message : String) : ChatOutcome :=
  match Voiceboard.init env vb with
  | (vb1, Except.error e) => { board := vb1, result := Except.error e, stats := emptyStats }
  | (vb1, Except.ok st1) =>
      let s1 := { vb1.state with currentQuery := message }
      match generateConversationalResponse env.llm s1 with
      | Except.error e =>
          { board := { vb1 with state := s1 }, result := Except.error e, stats := st1 }
      | Except.ok s2 =>
          { board := { vb1 with state := s2 }, result := Except.ok s2.response,
            stats := { st1 with generateCalls := st1.generateCalls + 1 } }

/-- `Voiceboard.clearConversation`: empty the history, keep everything else. -/
def Voiceboard.clearConversation (vb : Voiceboard) : Voiceboard :=
  { vb with state := { vb.state with conversationHistory := [] } }

/-- The per-session store `voiceboards: Map<string, Voiceboard>`. -/
abbrev Registry := List (String × Voiceboard)

/-- `Map.get`. -/
def regGet (r : Registry) (k : String) : Option Voiceboard :=
  match r with
  | [] => none
  | (k1, v) :: rest => if k1 = k then some v else regGet rest k

/-- `Map.set`: replaces the binding when the key is present, else appends. -/
def regSet (r : Registry) (k : String) (v : Voiceboard) : Registry :=
  match r with
  | [] => [(k, v)]
  | (k1, v1) :: rest => if k1 = k then (k, v) :: rest else (k1, v1) :: regSet rest k v

/-- The possible responses of `POST /api/voiceboard/create`. -/
inductive CreateResult where
  | badRequest (message : String)
  | serverError (message : String)
  | success (sessionId : String)
  deriving DecidableEq

/-- The REST create handler: validate the fields, build a fresh `Voiceboard`,
initialize it, and store it under `sessionId` — unconditionally, whether or
not the key was already present. -/
def createVoiceboardHandler (env : Env) (r : Registry) (personName sessionId : String) :
    CreateResult × Registry :=
  if personName = "" ∨ sessionId = "" then
    (CreateResult.badRequest "personName and sessionId are required", r)
  else
    match Voiceboard.init env (Voiceboard.new personName) with
    | (_, Except.error e) => (CreateResult.serverError e, r)
    | (vb1, Except.ok _) => (CreateResult.success sessionId, regSet r sessionId vb1)

/-- The events the server emits on a socket. -/
inductive SocketEvent where
  | status (message : String)
  | ready (personName : String)
  | response (message : String)
  | typing (isTyping : Bool)
  | errorEvent (message : String)
  | conversationCleared
  deriving DecidableEq

/-- The socket `chat` handler: validation and lookup first (no typing
indicator yet), then `typing(true)`, the chat call, and on either outcome
`typing(false)` last.  The stored board is the same mutable object the chat
call ran on, so the registry reflects its post-call state. -/
def chatSocketHandler (env : Env) (r : Registry) (socketId message : String) :
    List SocketEvent × Registry :=
  if message = "" then ([SocketEvent.errorEvent "Message cannot be empty"], r)
  else
    match regGet r socketId with
    | none => ([SocketEvent.errorEvent "Please create a voiceboard first"], r)
    | some vb =>
        let o := Voiceboard.chat env vb message
        match o.result with
        | Except.ok resp =>
            ([SocketEvent.typing true, SocketEvent.response resp, SocketEvent.typing false],
             regSet r socketId o.board)
        | Except.error e =>
            ([SocketEvent.typing true, SocketEvent.errorEvent e, SocketEvent.typing false],
             regSet r socketId o.board)

/-- Following the spec's words, for comparison with `evaluateData` (claim
C1): sufficient iff the count is at least 15 and at least one snippet —
tweet or other content — mentions the current or previous year. -/
def specEvaluatorSufficient (currentYear : Nat) (s : ConversationState) : Bool :=
  decide (s.tweets.length + s.otherContent.length ≥ 15) &&
    (s.tweets ++ s.otherContent).any (mentionsRecentYear currentYear)

/-- A bare snippet whose only content is its serialized text. -/
def plainSnippet (t : String) : Snippet :=
  { content := none, snippet := none, title := none, text := none, raw := t }

/-- An environment whose providers always succeed. -/
def env0 : Env :=
  { tavily := fun _ => Except.ok [], llm := fun _ => Except.ok "hello",
    dateString := "2024-07-01", currentYear := 2025 }

/-- An environment whose model always throws. -/
def envBad : Env :=
  { tavily := fun _ => Except.ok [], llm := fun _ => Except.error "boom",
    dateString := "2024-07-01", currentYear := 2025 }

/-- An environment whose search provider always throws. -/
def envFail : Env :=
  { tavily := fun _ => Except.error "network down", llm := fun _ => Except.ok "hello",
    dateString := "2024-07-01", currentYear := 2025 }

/-- 15 other-content snippets mentioning 2025, no tweets (claim C1). -/
def c1State : ConversationState :=
  { initialState "Ada" with otherContent := List.replicate 15 (plainSnippet "posted in 2025") }

/-- 15 tweets mentioning 2024 (claim C8). -/
def c8State : ConversationState :=
  { initialState "Ada" with tweets := List.replicate 15 (plainSnippet "tweet from 2024") }

/-- The final state of a fully-searched run under `env0` (every search comes
back empty, the evaluator never reports sufficiency, generation succeeds). -/
def fullRunState : ConversationState :=
  { personName := "Ada", tweets := [], otherContent := [], dataSufficient := false,
    searchAttempts := 4, response := "hello",
    conversationHistory := [Message.human "", Message.ai "hello"], currentQuery := "",
    personalityContext := "" }

def fullRunStats : RunStats := { searchCalls := 4, evalCalls := 4, generateCalls := 1 }

/-- An already-initialized board (witness input). -/
def readyBoard : Voiceboard := { Voiceboard.new "Ada" with ready := true }

/-- A registry already holding a session (claim C4). -/
def boardAda : Voiceboard := Voiceboard.new "Ada"

def c4Registry : Registry := [("sess1", boardAda)]

/-- A registry for the socket-handler witness (claim C10). -/
def c10Registry : Registry := [("sock", readyBoard)]

/-- A concrete `PersonalityState` for the P2 witnesses. -/
def pAda : PersonalityState :=
  { personName := "Ada", tweets := [], otherContent := [], dataSufficient := false,
    searchAttempts := 0, response := "" }

/-- The C8 witness state: same snippets as `c8State`, different elsewhere. -/
def c8StateB : ConversationState := { c8State with response := "x" }

/-- 15 other-content snippets with no year mention (claim C1 boundary). -/
def c1NoYearState : ConversationState :=
  { initialState "Ada" with otherContent := List.replicate 15 (plainSnippet "hello there") }

/-- 14 tweets mentioning the current year (claim C1 boundary). -/
def c1FourteenState : ConversationState :=
  { initialState "Ada" with tweets := List.replicate 14 (plainSnippet "tweet from 2025") }

/-- A prompt-string model that always throws (P2 witnesses). -/
def llmStrBad : String → Except String String := fun _ => Except.error "boom"

/-- The board produced by initializing a fresh "Ada" board under `env0`. -/
def vb9fin : Voiceboard := { personName := "Ada", state := fullRunState, ready := true }

/-! ### Helper lemmas -/

theorem isPrefixCh_self_append : ∀ (l t : List Char), isPrefixCh l (l ++ t) = true := by
  intro l t
  induction l with
  | nil => rfl
  | cons a as ih => simp [isPrefixCh, ih]

theorem hasSubCh_here : ∀ (n h : List Char), isPrefixCh n h = true → hasSubCh n h = true := by
  intro n h hp
  cases h with
  | nil => simpa [hasSubCh] using hp
  | cons c cs => simp [hasSubCh, hp]

theorem hasSubCh_cons (c : Char) (n t : List Char) (h : hasSubCh n t = true) :
    hasSubCh n (c :: t) = true := by
  simp [hasSubCh, h]

theorem hasSubCh_append : ∀ (pre n t : List Char), hasSubCh n t = true →
    hasSubCh n (pre ++ t) = true := by
  intro pre n t h
  induction pre with
  | nil => simpa using h
  | cons c cs ih => exact hasSubCh_cons c n (cs ++ t) ih

theorem strIncludes_sandwich (pre mid post : String) :
    strIncludes (pre ++ mid ++ post) mid = true := by
  unfold strIncludes
  rw [String.data_append, String.data_append, List.append_assoc]
  exact hasSubCh_append pre.data mid.data (mid.data ++ post.data)
    (hasSubCh_here mid.data (mid.data ++ post.data)
      (isPrefixCh_self_append mid.data post.data))

theorem append_ne_empty_left (a b : String) (ha : a.data ≠ []) : a ++ b ≠ "" := by
  intro h
  have hd : (a ++ b).data = ("" : String).data := congrArg String.data h
  rw [String.data_append] at hd
  cases hab : a.data with
  | nil => exact ha hab
  | cons c cs => rw [hab] at hd; exact List.noConfusion hd

theorem searchRecentTweets_ok {tav : String → Except String (List Snippet)}
    {d : String} {s s1 : ConversationState}
    (h : searchRecentTweets tav d s = Except.ok s1) :
    s1.searchAttempts = s.searchAttempts + 1 ∧
    s1.conversationHistory = s.conversationHistory ∧ s1.currentQuery = s.currentQuery := by
  unfold searchRecentTweets at h
  cases htav : tav (searchQuery s.personName d) with
  | error e => rw [htav] at h; exact Except.noConfusion h
  | ok results =>
      rw [htav] at h
      injection h with h1
      subst h1
      exact ⟨rfl, rfl, rfl⟩

theorem searchAdditionalSources_ok {tav : String → Except String (List Snippet)}
    {s s1 : ConversationState}
    (h : searchAdditionalSources tav s = Except.ok s1) :
    s1.searchAttempts = s.searchAttempts + 1 ∧
    s1.conversationHistory = s.conversationHistory ∧ s1.currentQuery = s.currentQuery := by
  unfold searchAdditionalSources at h
  cases htav : tav (additionalQuery s.personName s.searchAttempts) with
  | error e => rw [htav] at h; exact Except.noConfusion h
  | ok results =>
      rw [htav] at h
      injection h with h1
      subst h1
      exact ⟨rfl, rfl, rfl⟩

theorem generateConversationalResponse_ok {llm : List Message → Except String String}
    {s s1 : ConversationState}
    (h : generateConversationalResponse llm s = Except.ok s1) :
    s1.searchAttempts = s.searchAttempts ∧
    s1.conversationHistory = s.conversationHistory ++
      [Message.human s.currentQuery, Message.ai s1.response] := by
  unfold generateConversationalResponse at h
  cases hllm : llm (Message.system (systemPrompt s.personName (buildPersonalityContext s)) ::
      (s.conversationHistory ++ [Message.human s.currentQuery])) with
  | error e => rw [hllm] at h; exact Except.noConfusion h
  | ok aiResponse =>
      rw [hllm] at h
      injection h with h1
      subst h1
      exact ⟨rfl, rfl⟩

theorem shouldSearchMore_insufficient (s : ConversationState) :
    shouldSearchMore (insufficientEvaluator s) =
      if s.searchAttempts < 4 then Route.searchMore else Route.generate := by
  simp [shouldSearchMore, insufficientEvaluator]

theorem shouldSearchMore_searchMore {s : ConversationState}
    (h : shouldSearchMore s = Route.searchMore) : s.searchAttempts < 4 := by
  unfold shouldSearchMore at h
  by_cases h1 : s.dataSufficient = true
  · simp [h1] at h
  · simp [h1] at h
    by_cases h2 : s.searchAttempts < 4
    · exact h2
    · simp [h2] at h

theorem regGet_regSet_self : ∀ (r : Registry) (k : String) (v : Voiceboard),
    regGet (regSet r k v) k = some v := by
  intro r k v
  induction r with
  | nil => simp [regSet, regGet]
  | cons p rest ih =>
      obtain ⟨k1, v1⟩ := p
      by_cases hk : k1 = k
      · simp [regSet, regGet, hk]
      · simp [regSet, regGet, hk, ih]

theorem runInsufficient_spec (env : Env) :
    ∀ fuel : Nat,
      (∀ s st s1 st1, s.searchAttempts ≤ 4 →
        runGraph (searchRecentTweets env.tavily env.dateString) insufficientEvaluator
          (searchAdditionalSources env.tavily) (generateConversationalResponse env.llm)
          fuel Node.evaluate s st = Except.ok (s1, st1) →
        s1.searchAttempts = 4 ∧ st1.searchCalls = st.searchCalls + (4 - s.searchAttempts) ∧
          st1.generateCalls = st.generateCalls + 1) ∧
      (∀ s st s1 st1, s.searchAttempts < 4 →
        runGraph (searchRecentTweets env.tavily env.dateString) insufficientEvaluator
          (searchAdditionalSources env.tavily) (generateConversationalResponse env.llm)
          fuel Node.searchMore s st = Except.ok (s1, st1) →
        s1.searchAttempts = 4 ∧ st1.searchCalls = st.searchCalls + (4 - s.searchAttempts) ∧
          st1.generateCalls = st.generateCalls + 1) ∧
      (∀ s st s1 st1,
        runGraph (searchRecentTweets env.tavily env.dateString) insufficientEvaluator
          (searchAdditionalSources env.tavily) (generateConversationalResponse env.llm)
          fuel Node.generate s st = Except.ok (s1, st1) →
        s1.searchAttempts = s.searchAttempts ∧ st1.searchCalls = st.searchCalls ∧
          st1.generateCalls = st.generateCalls + 1) := by
  intro fuel
  induction fuel with
  | zero =>
      refine ⟨?_, ?_, ?_⟩ <;> (intro s st s1 st1; intros; simp [runGraph] at *)
  | succ f ih =>
      obtain ⟨ihE, ihM, ihG⟩ := ih
      refine ⟨?_, ?_, ?_⟩
      · intro s st s1 st1 hle hrun
        simp only [runGraph, shouldSearchMore_insufficient] at hrun
        by_cases h4 : s.searchAttempts < 4
        · simp only [h4, if_true] at hrun
          have hatt : (insufficientEvaluator s).searchAttempts < 4 := h4
          obtain ⟨e1, e2, e3⟩ := ihM (insufficientEvaluator s) _ s1 st1 hatt hrun
          refine ⟨e1, ?_, e3⟩
          simp only [insufficientEvaluator] at e2
          simpa using e2
        · simp only [h4, if_false] at hrun
          have heq : s.searchAttempts = 4 := by omega
          obtain ⟨e1, e2, e3⟩ := ihG (insufficientEvaluator s) _ s1 st1 hrun
          refine ⟨?_, ?_, e3⟩
          · simpa [insufficientEvaluator, heq] using e1
          · simp only [insufficientEvaluator] at e2
            simp [e2, heq]
      · intro s st s1 st1 hlt hrun
        simp only [runGraph] at hrun
        cases hsa : searchAdditionalSources env.tavily s with
        | error e => rw [hsa] at hrun; exact Except.noConfusion hrun
        | ok s2 =>
            rw [hsa] at hrun
            simp only at hrun
            obtain ⟨ha, _, _⟩ := searchAdditionalSources_ok hsa
            have hle2 : s2.searchAttempts ≤ 4 := by omega
            obtain ⟨e1, e2, e3⟩ := ihE s2 _ s1 st1 hle2 hrun
            refine ⟨e1, ?_, e3⟩
            simp only at e2
            rw [e2, ha]
            omega
      · intro s st s1 st1 hrun
        simp only [runGraph] at hrun
        cases hg : generateConversationalResponse env.llm s with
        | error e => rw [hg] at hrun; exact Except.noConfusion hrun
        | ok s2 =>
            rw [hg] at hrun
            simp only at hrun
            injection hrun with hpair
            obtain ⟨ha, _⟩ := generateConversationalResponse_ok hg
            have h1 : s2 = s1 := congrArg Prod.fst hpair
            have h2 : { st with generateCalls := st.generateCalls + 1 } = st1 :=
              congrArg Prod.snd hpair
            subst h1
            subst h2
            exact ⟨ha, rfl, rfl⟩

theorem runBound_spec (env : Env) (evalNode : ConversationState → ConversationState)
    (hE : ∀ s, (evalNode s).searchAttempts = s.searchAttempts) :
    ∀ fuel : Nat,
      (∀ s st s1 st1,
        runGraph (searchRecentTweets env.tavily env.dateString) evalNode
          (searchAdditionalSources env.tavily) (generateConversationalResponse env.llm)
          fuel Node.evaluate s st = Except.ok (s1, st1) →
        st1.searchCalls ≤ st.searchCalls + (4 - s.searchAttempts)) ∧
      (∀ s st s1 st1,
        runGraph (searchRecentTweets env.tavily env.dateString) evalNode
          (searchAdditionalSources env.tavily) (generateConversationalResponse env.llm)
          fuel Node.searchMore s st = Except.ok (s1, st1) →
        st1.searchCalls ≤ st.searchCalls + 1 + (4 - (s.searchAttempts + 1))) ∧
      (∀ s st s1 st1,
        runGraph (searchRecentTweets env.tavily env.dateString) evalNode
          (searchAdditionalSources env.tavily) (generateConversationalResponse env.llm)
          fuel Node.generate s st = Except.ok (s1, st1) →
        st1.searchCalls = st.searchCalls) := by
  intro fuel
  induction fuel with
  | zero =>
      refine ⟨?_, ?_, ?_⟩ <;> (intro s st s1 st1; intros; simp [runGraph] at *)
  | succ f ih =>
      obtain ⟨ihE, ihM, ihG⟩ := ih
      refine ⟨?_, ?_, ?_⟩
      · intro s st s1 st1 hrun
        simp only [runGraph] at hrun
        cases hr : shouldSearchMore (evalNode s) with
        | searchMore =>
            rw [hr] at hrun
            have hlt : (evalNode s).searchAttempts < 4 := shouldSearchMore_searchMore hr
            rw [hE s] at hlt
            have := ihM (evalNode s) _ s1 st1 hrun
            simp only at this
            rw [hE s] at this
            omega
        | generate =>
            rw [hr] at hrun
            have := ihG (evalNode s) _ s1 st1 hrun
            simp only at this
            omega
      · intro s st s1 st1 hrun
        simp only [runGraph] at hrun
        cases hsa : searchAdditionalSources env.tavily s with
        | error e => rw [hsa] at hrun; exact Except.noConfusion hrun
        | ok s2 =>
            rw [hsa] at hrun
            simp only at hrun
            obtain ⟨ha, _, _⟩ := searchAdditionalSources_ok hsa
            have := ihE s2 _ s1 st1 hrun
            simp only at this
            rw [ha] at this
            omega
      · intro s st s1 st1 hrun
        simp only [runGraph] at hrun
        cases hg : generateConversationalResponse env.llm s with
        | error e => rw [hg] at hrun; exact Except.noConfusion hrun
        | ok s2 =>
            rw [hg] at hrun
            simp only at hrun
            injection hrun with hpair
            have h2 : { st with generateCalls := st.generateCalls + 1 } = st1 :=
              congrArg Prod.snd hpair
            subst h2
            rfl

theorem runWorkflow_history (env : Env) :
    ∀ (fuel : Nat) (node : Node) (s : ConversationState) (st : RunStats)
      (s1 : ConversationState) (st1 : RunStats),
      runWorkflow env fuel node s st = Except.ok (s1, st1) →
      s1.conversationHistory = s.conversationHistory ++
        [Message.human s.currentQuery, Message.ai s1.response] := by
  intro fuel
  induction fuel with
  | zero => intro node s st s1 st1 h; simp [runWorkflow, runGraph] at h
  | succ f ih =>
      intro node s st s1 st1 h
      cases node with
      | searchTweets =>
          simp only [runWorkflow, runGraph] at h
          cases hsr : searchRecentTweets env.tavily env.dateString s with
          | error e => rw [hsr] at h; exact Except.noConfusion h
          | ok s2 =>
              rw [hsr] at h
              simp only at h
              obtain ⟨_, hh, hq⟩ := searchRecentTweets_ok hsr
              have := ih Node.evaluate s2 _ s1 st1 h
              rw [hh, hq] at this
              exact this
      | evaluate =>
          simp only [runWorkflow, runGraph] at h
          cases hr : shouldSearchMore (evaluateData env.currentYear s) with
          | searchMore =>
              rw [hr] at h
              have := ih Node.searchMore (evaluateData env.currentYear s) _ s1 st1 h
              simpa [evaluateData] using this
          | generate =>
              rw [hr] at h
              have := ih Node.generate (evaluateData env.currentYear s) _ s1 st1 h
              simpa [evaluateData] using this
      | searchMore =>
          simp only [runWorkflow, runGraph] at h
          cases hsa : searchAdditionalSources env.tavily s with
          | error e => rw [hsa] at h; exact Except.noConfusion h
          | ok s2 =>
              rw [hsa] at h
              simp only at h
              obtain ⟨_, hh, hq⟩ := searchAdditionalSources_ok hsa
              have := ih Node.evaluate s2 _ s1 st1 h
              rw [hh, hq] at this
              exact this
      | generate =>
          simp only [runWorkflow, runGraph] at h
          cases hg : generateConversationalResponse env.llm s with
          | error e => rw [hg] at h; exact Except.noConfusion h
          | ok s2 =>
              rw [hg] at h
              simp only at h
              injection h with hpair
              have h1 : s2 = s1 := congrArg Prod.fst hpair
              subst h1
              exact (generateConversationalResponse_ok hg).2

/-! ### Claim theorems -/

/-- Claim C1, counterexample: with 15 other-content snippets all mentioning
the current year and no tweets, the spec's predicate (any snippet mentioning
a recent year) is true, but `evaluateData` reports insufficient, because the
code inspects only `tweets` for the recent-year mention.  So the claimed
"if and only if" over all snippets fails. -/
theorem C1_counterexample :
    specEvaluatorSufficient 2025 c1State = true ∧
    (evaluateData 2025 c1State).dataSufficient = false := by
  constructor
  · decide
  · decide

/-- Claim C1, amended: `evaluateData` returns true iff the total snippet
count is at least 15 AND at least one TWEET's serialized text contains the
current or previous year as a substring; in particular it is false for 15
snippets none of whose tweets mention a recent year, and false for any 14
snippets whatever they mention. -/
theorem C1_evaluateData_characterization :
    (∀ (y : Nat) (s : ConversationState),
        (evaluateData y s).dataSufficient = true ↔
          (15 ≤ s.tweets.length + s.otherContent.length ∧
            s.tweets.any (mentionsRecentYear y) = true)) ∧
    (∀ (y : Nat) (s : ConversationState),
        s.tweets.length + s.otherContent.length = 15 →
        s.tweets.any (mentionsRecentYear y) = false →
        (evaluateData y s).dataSufficient = false) ∧
    (∀ (y : Nat) (s : ConversationState),
        s.tweets.length + s.otherContent.length = 14 →
        (evaluateData y s).dataSufficient = false) := by
  refine ⟨?_, ?_, ?_⟩
  · intro y s
    simp [evaluateData]
  · intro y s hc hr
    simp [evaluateData, hc, hr]
  · intro y s hc
    simp [evaluateData, hc]

/-- Claim C1, witness: the characterization applied at the two boundary
states — 15 no-recent-mention snippets and 14 recent-mention tweets. -/
theorem C1_witness :
    (evaluateData 2025 c1NoYearState).dataSufficient = false ∧
    (evaluateData 2025 c1FourteenState).dataSufficient = false :=
  ⟨C1_evaluateData_characterization.2.1 2025 c1NoYearState (by decide) (by decide),
   C1_evaluateData_characterization.2.2 2025 c1FourteenState (by decide)⟩

/-- Claim C2: with an evaluator that reports insufficient data on every pass
(as the spec's testable property stipulates), a completed initialization run
from a fresh state ends with `searchAttempts` exactly 4 and then reaches the
generate node (the run returns, and the generate node ran exactly once);
moreover with the real evaluator any completed initialization run makes at
most 5 external search calls, and each search node — initial or follow-up —
increments `searchAttempts` by exactly 1. -/
theorem C2_search_attempt_bound :
    (∀ (env : Env) (fuel : Nat) (s0 s1 : ConversationState) (st1 : RunStats),
        s0.searchAttempts = 0 →
        runGraph (searchRecentTweets env.tavily env.dateString) insufficientEvaluator
          (searchAdditionalSources env.tavily) (generateConversationalResponse env.llm)
          fuel Node.searchTweets s0 emptyStats = Except.ok (s1, st1) →
        s1.searchAttempts = 4 ∧ st1.searchCalls = 4 ∧ st1.searchCalls ≤ 5 ∧
          st1.generateCalls = 1) ∧
    (∀ (env : Env) (fuel : Nat) (s0 s1 : ConversationState) (st1 : RunStats),
        s0.searchAttempts = 0 →
        runWorkflow env fuel Node.searchTweets s0 emptyStats = Except.ok (s1, st1) →
        st1.searchCalls ≤ 5) ∧
    (∀ (tav : String → Except String (List Snippet)) (d : String)
        (s s1 : ConversationState), searchRecentTweets tav d s = Except.ok s1 →
        s1.searchAttempts = s.searchAttempts + 1) ∧
    (∀ (tav : String → Except String (List Snippet)) (s s1 : ConversationState),
        searchAdditionalSources tav s = Except.ok s1 →
        s1.searchAttempts = s.searchAttempts + 1) := by
  refine ⟨?_, ?_, ?_, ?_⟩
  · intro env fuel s0 s1 st1 h0 hrun
    cases fuel with
    | zero => simp [runGraph] at hrun
    | succ f =>
        simp only [runGraph] at hrun
        cases hsr : searchRecentTweets env.tavily env.dateString s0 with
        | error e => rw [hsr] at hrun; exact Except.noConfusion hrun
        | ok s2 =>
            rw [hsr] at hrun
            simp only at hrun
            obtain ⟨ha, _, _⟩ := searchRecentTweets_ok hsr
            rw [h0] at ha
            obtain ⟨e1, e2, e3⟩ := (runInsufficient_spec env f).1 s2 _ s1 st1 (by omega) hrun
            refine ⟨e1, ?_, ?_, ?_⟩
            · simp [emptyStats] at e2; omega
            · simp [emptyStats] at e2; omega
            · simp [emptyStats] at e3; omega
  · intro env fuel s0 s1 st1 h0 hrun
    cases fuel with
    | zero => simp [runWorkflow, runGraph] at hrun
    | succ f =>
        simp only [runWorkflow, runGraph] at hrun
        cases hsr : searchRecentTweets env.tavily env.dateString s0 with
        | error e => rw [hsr] at hrun; exact Except.noConfusion hrun
        | ok s2 =>
            rw [hsr] at hrun
            simp only at hrun
            obtain ⟨ha, _, _⟩ := searchRecentTweets_ok hsr
            rw [h0] at ha
            have hb := (runBound_spec env (evaluateData env.currentYear)
              (fun s => rfl) f).1 s2 _ s1 st1 hrun
            simp only [emptyStats] at hb
            omega
  · intro tav d s s1 h
    exact (searchRecentTweets_ok h).1
  · intro tav s s1 h
    exact (searchAdditionalSources_ok h).1

/-- Claim C2, witness: the bound applied to a concrete run, under providers
that always succeed with empty results, from the fresh "Ada" state. -/
theorem C2_witness :
    fullRunState.searchAttempts = 4 ∧ fullRunStats.searchCalls = 4 ∧
      fullRunStats.searchCalls ≤ 5 ∧ fullRunStats.generateCalls = 1 :=
  C2_search_attempt_bound.1 env0 recursionLimit (initialState "Ada") fullRunState
    fullRunStats rfl rfl

/-- Claim C3, counterexample: on an initialized board whose model always
throws, `chat` propagates the error — it returns no fallback string at all —
and the conversation history afterwards is still empty: the user's turn was
not recorded.  (`Voiceboard.chat` generates through
`generateConversationalResponse`, which has no try/catch and updates the
history only after a successful model call.) -/
theorem C3_counterexample :
    (Voiceboard.chat envBad readyBoard "hello").result = Except.error "boom" ∧
    (Voiceboard.chat envBad readyBoard "hello").board.state.conversationHistory = [] :=
  ⟨rfl, rfl⟩

/-- Claim C3, amended: the fallback behaviour lives in the unnamed workflow
file's `generateResponse`, which on a model failure returns a fixed,
non-empty apology containing the persona's name; `Voiceboard.chat`, by
contrast, propagates the model error and leaves the conversation history
exactly as it was, without the user's turn. -/
theorem C3_generator_fallback :
    (∀ (llm : String → Except String String) (s : PersonalityState)
        (q : Option String) (e : String),
        llm (P2.buildPrompt s q) = Except.error e →
        (P2.generateResponse llm s q).response =
          "I\x27m sorry, I\x27m having trouble generating a response right now. This is " ++
            s.personName ++ " speaking." ∧
        strIncludes (P2.generateResponse llm s q).response s.personName = true ∧
        (P2.generateResponse llm s q).response ≠ "") ∧
    (∀ (env : Env) (vb : Voiceboard) (message e : String),
        (∀ ms, env.llm ms = Except.error e) →
        vb.ready = true →
        (Voiceboard.chat env vb message).result = Except.error e ∧
        (Voiceboard.chat env vb message).board.state.conversationHistory =
          vb.state.conversationHistory) := by
  constructor
  · intro llm s q e hllm
    have hres : (P2.generateResponse llm s q).response =
        "I\x27m sorry, I\x27m having trouble generating a response right now. This is " ++
          s.personName ++ " speaking." := by
      unfold P2.generateResponse
      rw [hllm]
    refine ⟨hres, ?_, ?_⟩
    · rw [hres]
      exact strIncludes_sandwich _ s.personName _
    · rw [hres]
      rw [String.append_assoc]
      exact append_ne_empty_left _ _ (by decide)
  · intro env vb message e hllm hready
    unfold Voiceboard.chat Voiceboard.init
    rw [hready]
    simp only [if_true]
    unfold generateConversationalResponse
    rw [hllm]
    exact ⟨rfl, rfl⟩

/-- Claim C3, witness: the amended statement applied at a model stub that
always throws, on the concrete "Ada" persona state and board. -/
theorem C3_witness :
    ((P2.generateResponse llmStrBad pAda none).response =
      "I\x27m sorry, I\x27m having trouble generating a response right now. This is " ++
        pAda.personName ++ " speaking." ∧
     strIncludes (P2.generateResponse llmStrBad pAda none).response pAda.personName = true ∧
     (P2.generateResponse llmStrBad pAda none).response ≠ "") ∧
    ((Voiceboard.chat envBad readyBoard "hi").result = Except.error "boom" ∧
     (Voiceboard.chat envBad readyBoard "hi").board.state.conversationHistory =
       readyBoard.state.conversationHistory) :=
  ⟨C3_generator_fallback.1 llmStrBad pAda none "boom" rfl,
   C3_generator_fallback.2 envBad readyBoard "hi" "boom" (fun _ => rfl) rfl⟩

/-- Claim C4, counterexample: the registry already holds session "sess1",
yet `create` for the same sessionId succeeds — it does not fail — and the
stored board afterwards is no longer the one that was there: both REST and
socket create handlers call `Map.set` unconditionally, replacing any
existing session. -/
theorem C4_counterexample :
    regGet c4Registry "sess1" = some boardAda ∧
    (createVoiceboardHandler env0 c4Registry "Bob" "sess1").1 = CreateResult.success "sess1" ∧
    regGet (createVoiceboardHandler env0 c4Registry "Bob" "sess1").2 "sess1" ≠
      some boardAda := by
  refine ⟨rfl, rfl, ?_⟩
  decide

/-- Claim C4, amended: a `create` call whose validation passes and whose
initialization succeeds always reports success and stores the freshly
initialized board under the sessionId — replacing, not preserving, any board
previously stored there. -/
theorem C4_create_replaces :
    ∀ (env : Env) (r : Registry) (personName sessionId : String)
      (res : CreateResult) (r1 : Registry),
      createVoiceboardHandler env r personName sessionId = (res, r1) →
      res = CreateResult.success sessionId →
      regGet r1 sessionId = some (Voiceboard.init env (Voiceboard.new personName)).1 := by
  intro env r personName sessionId res r1 h hres
  unfold createVoiceboardHandler at h
  by_cases hv : personName = "" ∨ sessionId = ""
  · rw [if_pos hv] at h
    have : res = CreateResult.badRequest "personName and sessionId are required" :=
      (congrArg Prod.fst h).symm
    rw [hres] at this
    exact CreateResult.noConfusion this
  · rw [if_neg hv] at h
    cases hinit : Voiceboard.init env (Voiceboard.new personName) with
    | mk vb1 result =>
        cases result with
        | error e =>
            rw [hinit] at h
            have : res = CreateResult.serverError e := (congrArg Prod.fst h).symm
            rw [hres] at this
            exact CreateResult.noConfusion this
        | ok st =>
            rw [hinit] at h
            have hr1 : regSet r sessionId vb1 = r1 := congrArg Prod.snd h
            rw [← hr1]
            exact regGet_regSet_self r sessionId vb1

/-- Claim C4, witness: the amended statement applied to the duplicate-create
scenario of the counterexample registry. -/
theorem C4_witness :
    regGet (createVoiceboardHandler env0 c4Registry "Bob" "sess1").2 "sess1" =
      some (Voiceboard.init env0 (Voiceboard.new "Bob")).1 :=
  C4_create_replaces env0 c4Registry "Bob" "sess1" (CreateResult.success "sess1")
    (createVoiceboardHandler env0 c4Registry "Bob" "sess1").2 rfl rfl

/-- Claim C5, counterexample: initialization does NOT run at most once
across chat calls.  Under a failing search provider, the first `chat` on a
fresh board throws the provider's error and leaves the board uninitialized,
and the second `chat` runs the search node again — it fails with the search
provider's error once more, which only the search node can produce. -/
theorem C5_counterexample :
    (Voiceboard.chat envFail boardAda "hi").board.ready = false ∧
    (Voiceboard.chat envFail boardAda "hi").result = Except.error "network down" ∧
    (Voiceboard.chat envFail (Voiceboard.chat envFail boardAda "hi").board "again").result =
      Except.error "network down" :=
  ⟨rfl, rfl, rfl⟩

/-- Claim C5, amended: the search/evaluate workflow runs during at most one
SUCCESSFUL `chat` call.  A `chat` on an already-initialized board runs no
search and no evaluate node, and on success exactly one generate node; any
`chat` that returns successfully leaves the board initialized, so every
subsequent `chat` takes the initialized path.  But when the initialization
workflow throws, the flag stays false and the error propagates, so the next
`chat` re-runs search/evaluate. -/
theorem C5_chat_skips_initialization :
    (∀ (env : Env) (vb : Voiceboard) (message : String),
        vb.ready = true →
        (Voiceboard.chat env vb message).stats.searchCalls = 0 ∧
        (Voiceboard.chat env vb message).stats.evalCalls = 0 ∧
        (∀ r, (Voiceboard.chat env vb message).result = Except.ok r →
          (Voiceboard.chat env vb message).stats.generateCalls = 1)) ∧
    (∀ (env : Env) (vb : Voiceboard) (message : String) (r : String),
        (Voiceboard.chat env vb message).result = Except.ok r →
        (Voiceboard.chat env vb message).board.ready = true) ∧
    (∀ (env : Env) (vb : Voiceboard) (message e : String),
        vb.ready = false →
        runWorkflow env recursionLimit Node.searchTweets vb.state emptyStats =
          Except.error e →
        (Voiceboard.chat env vb message).board.ready = false ∧
        (Voiceboard.chat env vb message).result = Except.error e) := by
  refine ⟨?_, ?_, ?_⟩
  · intro env vb message hready
    unfold Voiceboard.chat Voiceboard.init
    rw [if_pos hready]
    dsimp only
    split
    · exact ⟨rfl, rfl, fun r hr => Except.noConfusion hr⟩
    · exact ⟨rfl, rfl, fun r _ => rfl⟩
  · intro env vb message r hok
    unfold Voiceboard.chat Voiceboard.init at hok ⊢
    by_cases hready : vb.ready = true
    · rw [if_pos hready] at hok ⊢
      dsimp only at hok ⊢
      split at hok
      · exact absurd hok (by simp)
      · exact hready
    · rw [if_neg hready] at hok ⊢
      cases hrun : runWorkflow env recursionLimit Node.searchTweets vb.state emptyStats with
      | error e =>
          rw [hrun] at hok
          exact absurd hok (by simp)
      | ok p =>
          obtain ⟨s1, st⟩ := p
          dsimp only
          split
          · rfl
          · rfl
  · intro env vb message e hready hrun
    unfold Voiceboard.chat Voiceboard.init
    rw [if_neg (by simp [hready])]
    rw [hrun]
    dsimp only
    exact ⟨hready, rfl⟩

/-- Claim C5, witness: on the initialized "Ada" board under succeeding
providers, chat makes no search and no evaluate call, one generate call, and
leaves the board initialized; and on a fresh board under a failing search
provider, chat propagates the error and the board stays uninitialized. -/
theorem C5_witness :
    (((Voiceboard.chat env0 readyBoard "hi").stats.searchCalls = 0 ∧
      (Voiceboard.chat env0 readyBoard "hi").stats.evalCalls = 0 ∧
      (∀ r, (Voiceboard.chat env0 readyBoard "hi").result = Except.ok r →
        (Voiceboard.chat env0 readyBoard "hi").stats.generateCalls = 1)) ∧
     (Voiceboard.chat env0 readyBoard "hi").board.ready = true) ∧
    ((Voiceboard.chat envFail boardAda "again").board.ready = false ∧
     (Voiceboard.chat envFail boardAda "again").result = Except.error "network down") :=
  ⟨⟨C5_chat_skips_initialization.1 env0 readyBoard "hi" rfl,
    C5_chat_skips_initialization.2.1 env0 readyBoard "hi" "hello" rfl⟩,
   C5_chat_skips_initialization.2.2 envFail boardAda "again" "network down" rfl rfl⟩

/-- Claim C6, counterexample: the fetcher of `src/workflow.ts` — the one the
`Voiceboard` workflow is wired to — propagates a provider failure instead of
returning an empty snippet batch. -/
theorem C6_counterexample :
    searchRecentTweets envFail.tavily envFail.dateString (initialState "Ada") =
      Except.error "network down" := rfl

/-- Claim C6, amended: only the unnamed workflow file's fetchers swallow a
provider failure — the tweet search into an empty batch and the follow-up
search into an unchanged `otherContent`, both still incrementing the attempt
counter — while the `src/workflow.ts` fetcher propagates the failure. -/
theorem C6_fetcher_error_handling :
    (∀ (tavily : String → Except String (List Snippet)) (d : String)
        (s : PersonalityState) (e : String),
        tavily (searchQuery s.personName d) = Except.error e →
        P2.searchRecentTweets tavily d s =
          { s with tweets := [], searchAttempts := s.searchAttempts + 1 }) ∧
    (∀ (tavily : String → Except String (List Snippet)) (s : PersonalityState) (e : String),
        tavily (additionalQuery s.personName s.searchAttempts) = Except.error e →
        P2.searchAdditionalSources tavily s =
          { s with searchAttempts := s.searchAttempts + 1 }) ∧
    (∀ (tavily : String → Except String (List Snippet)) (d : String)
        (s : ConversationState) (e : String),
        tavily (searchQuery s.personName d) = Except.error e →
        searchRecentTweets tavily d s = Except.error e) := by
  refine ⟨?_, ?_, ?_⟩
  · intro tavily d s e h
    unfold P2.searchRecentTweets
    rw [h]
  · intro tavily s e h
    unfold P2.searchAdditionalSources
    rw [h]
  · intro tavily d s e h
    unfold searchRecentTweets
    rw [h]

/-- Claim C6, witness: the amended statement applied to a provider that
always fails, on the concrete "Ada" states. -/
theorem C6_witness :
    (P2.searchRecentTweets envFail.tavily "2024-07-01" pAda =
      { pAda with tweets := [], searchAttempts := pAda.searchAttempts + 1 }) ∧
    (P2.searchAdditionalSources envFail.tavily pAda =
      { pAda with searchAttempts := pAda.searchAttempts + 1 }) ∧
    (searchRecentTweets envFail.tavily "2024-07-01" (initialState "Bea") =
      Except.error "network down") :=
  ⟨C6_fetcher_error_handling.1 envFail.tavily "2024-07-01" pAda "network down" rfl,
   C6_fetcher_error_handling.2.1 envFail.tavily pAda "network down" rfl,
   C6_fetcher_error_handling.2.2 envFail.tavily "2024-07-01" (initialState "Bea")
     "network down" rfl⟩

/-- Claim C7: `clearConversation` empties the conversation history and
changes nothing else — snippets, attempt count, and every other field of the
board and its state are untouched. -/
theorem C7_clearConversation_frame : ∀ vb : Voiceboard,
    (Voiceboard.clearConversation vb).state.conversationHistory = [] ∧
    (Voiceboard.clearConversation vb).state.tweets = vb.state.tweets ∧
    (Voiceboard.clearConversation vb).state.otherContent = vb.state.otherContent ∧
    (Voiceboard.clearConversation vb).state.searchAttempts = vb.state.searchAttempts ∧
    (Voiceboard.clearConversation vb).state.dataSufficient = vb.state.dataSufficient ∧
    (Voiceboard.clearConversation vb).state.response = vb.state.response ∧
    (Voiceboard.clearConversation vb).state.currentQuery = vb.state.currentQuery ∧
    (Voiceboard.clearConversation vb).state.personalityContext =
      vb.state.personalityContext ∧
    (Voiceboard.clearConversation vb).state.personName = vb.state.personName ∧
    (Voiceboard.clearConversation vb).personName = vb.personName ∧
    (Voiceboard.clearConversation vb).ready = vb.ready :=
  fun _ => ⟨rfl, rfl, rfl, rfl, rfl, rfl, rfl, rfl, rfl, rfl, rfl⟩

/-- Claim C8, counterexample: the sufficiency decision is not a function of
the snippet sequence alone — the code also reads the wall-clock year.  The
same 15 tweets mentioning 2024 are sufficient when the current year is 2025
(2024 is the previous year) and insufficient when it is 2027. -/
theorem C8_counterexample :
    (evaluateData 2025 c8State).dataSufficient = true ∧
    (evaluateData 2027 c8State).dataSufficient = false := by
  constructor
  · decide
  · decide

/-- Claim C8, amended: the evaluator is deterministic given the snippet
sequence AND the current calendar year: two invocations with equal tweets,
equal other content and the same current year yield the same decision (the
embedding is a pure function, so there are no side effects). -/
theorem C8_evaluator_deterministic :
    ∀ (y : Nat) (s1 s2 : ConversationState),
      s1.tweets = s2.tweets → s1.otherContent = s2.otherContent →
      (evaluateData y s1).dataSufficient = (evaluateData y s2).dataSufficient := by
  intro y s1 s2 h1 h2
  simp [evaluateData, h1, h2]

/-- Claim C8, witness: determinism applied to two states with the same
snippets but different response fields. -/
theorem C8_witness :
    (evaluateData 2025 c8State).dataSufficient = (evaluateData 2025 c8StateB).dataSufficient :=
  C8_evaluator_deterministic 2025 c8State c8StateB rfl rfl

/-- C10 helper: in a `typing(true), middle, typing(false)` event triple, any
position holding `typing(true)` is followed by a later `typing(false)`. -/
theorem typingTriple (a : SocketEvent) (i : Nat)
    (h : ([SocketEvent.typing true, a, SocketEvent.typing false] : List SocketEvent).get? i =
      some (SocketEvent.typing true)) :
    ∃ j, i < j ∧ ([SocketEvent.typing true, a, SocketEvent.typing false] :
      List SocketEvent).get? j = some (SocketEvent.typing false) := by
  match i with
  | 0 => exact ⟨2, by omega, rfl⟩
  | 1 => exact ⟨2, by omega, rfl⟩
  | 2 => simp [List.get?] at h
  | n + 4 => simp [List.get?] at h
  | 3 => simp [List.get?] at h

/-- Claim C9: a successful `initialize` on a fresh board already leaves the
conversation history non-empty — the workflow terminates in the generate
node with the constructor's default `currentQuery` (the empty string), so
the history is exactly a user turn with empty text followed by one persona
reply. -/
theorem C9_init_produces_history :
    ∀ (env : Env) (pname : String) (vb1 : Voiceboard) (st : RunStats),
      Voiceboard.init env (Voiceboard.new pname) = (vb1, Except.ok st) →
      vb1.state.conversationHistory =
        [Message.human "", Message.ai vb1.state.response] ∧
      vb1.state.conversationHistory ≠ [] := by
  intro env pname vb1 st h
  unfold Voiceboard.init at h
  rw [if_neg (by simp [Voiceboard.new])] at h
  cases hrun : runWorkflow env recursionLimit Node.searchTweets (Voiceboard.new pname).state
      emptyStats with
  | error e =>
      rw [hrun] at h
      have := congrArg Prod.snd h
      simp at this
  | ok p =>
      obtain ⟨s1, st1⟩ := p
      rw [hrun] at h
      dsimp only at h
      have hstate : vb1.state = s1 := by
        have h2 := congrArg (fun p => (Prod.fst p).state) h
        simp only at h2
        exact h2.symm
      have hh := runWorkflow_history env recursionLimit Node.searchTweets
        (Voiceboard.new pname).state emptyStats s1 st1 hrun
      rw [hstate]
      constructor
      · simpa [Voiceboard.new, initialState] using hh
      · have : s1.conversationHistory =
            [Message.human "", Message.ai s1.response] := by
          simpa [Voiceboard.new, initialState] using hh
        rw [this]
        simp

/-- Claim C9, witness: the concrete initialization under `env0` yields the
history `[user "", persona "hello"]`. -/
theorem C9_witness :
    vb9fin.state.conversationHistory =
      [Message.human "", Message.ai vb9fin.state.response] ∧
    vb9fin.state.conversationHistory ≠ [] :=
  C9_init_produces_history env0 "Ada" vb9fin fullRunStats rfl

/-- Claim C10: in the socket chat handler, every emitted `typing(true)` is
followed, later in the same handler's emission sequence, by a
`typing(false)` — on the success path (after the response event) and on the
error path (after the error event) alike; the early validation and lookup
failures emit no typing event at all. -/
theorem C10_typing_indicator :
    ∀ (env : Env) (r : Registry) (socketId message : String) (i : Nat),
      (chatSocketHandler env r socketId message).1.get? i =
        some (SocketEvent.typing true) →
      ∃ j, i < j ∧ (chatSocketHandler env r socketId message).1.get? j =
        some (SocketEvent.typing false) := by
  intro env r socketId message i h
  unfold chatSocketHandler at h ⊢
  by_cases hmsg : message = ""
  · rw [if_pos hmsg] at h
    cases i with
    | zero => simp [List.get?] at h
    | succ n => simp [List.get?] at h
  · rw [if_neg hmsg] at h ⊢
    cases hreg : regGet r socketId with
    | none =>
        rw [hreg] at h
        cases i with
        | zero => simp [List.get?] at h
        | succ n => simp [List.get?] at h
    | some vb =>
        rw [hreg] at h
        dsimp only at h ⊢
        cases hres : (Voiceboard.chat env vb message).result with
        | ok resp =>
            rw [hres] at h
            dsimp only at h ⊢
            exact typingTriple _ i h
        | error e =>
            rw [hres] at h
            dsimp only at h ⊢
            exact typingTriple _ i h

/-- Claim C10, witness: on a live session whose chat succeeds, the handler's
`typing(true)` at position 0 is followed by a later `typing(false)`. -/
theorem C10_witness :
    ∃ j, 0 < j ∧ (chatSocketHandler env0 c10Registry "sock" "hi").1.get? j =
      some (SocketEvent.typing false) :=
  C10_typing_indicator env0 c10Registry "sock" "hi" 0 rfl
